import Mathlib

/-!
Verification of the image-optimizer retrieval-transform-cache pipeline.

The definitions below are a shallow embedding of the pipeline in
`src/unnamed/part_002` (`index.ts` of the Bun service): `getImageBuffer`,
`getCachedImage` / `cacheImage`, `getCachedOriginalImage` /
`cacheOriginalImage`, `processImage` and `handleImageRequest`.

Modelling conventions:
* Byte payloads (`Buffer`) are `List Nat`.  Redis stores base64 strings;
  since base64 is injective, `decode ∘ encode = id`, and the encoding of a
  buffer is empty iff the buffer is empty, the cache is modelled as storing
  the byte list itself.  The JavaScript truthiness test
  `if (cachedImage)` on the stored string is therefore the non-emptiness
  test on the byte list.
* External collaborators (Redis, the HTTP transport, the S3/R2 client and
  the sharp transform) are oracles packaged in an `Env`; they are plain
  functions, hence deterministic.  Redis get/set faults are injected per
  key via `cacheGetErr` / `cacheSetErr` (the thrown `Error` message).
* A thrown JavaScript `Error` is `Except.error msg` carrying the message;
  the `catch` blocks of the source are the corresponding `match` arms.
* Side effects are made observable through an event trace and by passing
  the Redis key-value state (`CacheMap`) explicitly.
* `savings.toFixed(2)` / `parseFloat(savings) < 0`: `toFixed(2)` rounds the
  percentage to the nearest hundredth, half away from zero, and
  `parseFloat` of the resulting string is negative iff that rounded value
  is at most -0.01, i.e. iff the exact percentage is ≤ -0.005.  Over the
  integer byte counts this is `20000 * (orig - opt) ≤ -orig` (for
  `orig ≠ 0`; for `orig = 0` the quotient is `-Infinity` when `opt ≠ 0`
  and `NaN`, which compares false, when `opt = 0`).
-/

/-- Byte payloads (`Buffer` contents). -/
abbrev Bytes := List Nat

/-- The mutable Redis key-value state (values are buffers, see header). -/
abbrev CacheMap := String → Option Bytes

/-- Functional update of the Redis state performed by `redis.set`. -/
def updateCache (cache : CacheMap) (key : String) (v : Bytes) : CacheMap :=
  fun k => if k = key then some v else cache k

/-- Outcome of `await s3Client.file(src).arrayBuffer()`: either the bytes,
or a thrown error carrying its message (a "no such key" condition is a
message containing `NoSuchKey`). -/
inductive S3Result where
  | ok (bytes : Bytes)
  | err (msg : String)
deriving DecidableEq

/-- The process-wide collaborators and fault injection:
`isCacheEnabled` / `redisPresent` model the two globals `isCacheEnabled`
and `redis !== null`; `s3Present` models `s3Client !== null`;
`http src` is `fetch(src)` (`some body` for an ok 2xx response, `none` for
a non-2xx response or a transport error — both end in the same re-wrapped
error in the source); `s3` is the R2 read; `transform` is the opaque sharp
pipeline `sharp(buf) [.resize w] [.webp {quality}] .toBuffer()`, taking the
optional resize width and the optional webp quality actually applied. -/
structure Env where
  isCacheEnabled : Bool
  redisPresent : Bool
  s3Present : Bool
  cacheGetErr : String → Option String
  cacheSetErr : String → Option String
  http : String → Option Bytes
  s3 : String → S3Result
  transform : Bytes → Option Int → Option Int → Except String Bytes

/-- Observable side effects of one request. -/
inductive Event where
  | cacheGet (key : String)
  | cacheSet (key : String) (value : Bytes)
  | httpGet (url : String)
  | s3Get (key : String)
  | transformEv
deriving DecidableEq

/-- Cache status reported in the `X-Cache` response header. -/
inductive XCache where
  | HIT
  | MISS
deriving DecidableEq

/-- The HTTP response rendered by `handleImageRequest`: a 200 image
response with its `X-Cache` header, or a JSON error response with its
status code and message. -/
inductive ServeOutcome where
  | image (x : XCache) (body : Bytes)
  | error (status : Nat) (msg : String)
deriving DecidableEq

/-- `a` is a prefix of `b` (char lists), as a boolean. -/
def startsWithL : List Char → List Char → Bool
  | [], _ => true
  | _ :: _, [] => false
  | a :: as, b :: bs => a == b && startsWithL as bs

/-- Scan for `needle` anywhere in the haystack. -/
def hasSubL (needle : List Char) : List Char → Bool
  | [] => startsWithL needle []
  | b :: bs => startsWithL needle (b :: bs) || hasSubL needle bs

/-- JavaScript `hay.includes(needle)`. -/
def strIncludes (hay needle : String) : Bool :=
  hasSubL needle.toList hay.toList

/-- JavaScript `s.startsWith(p)`. -/
def startsWithStr (s p : String) : Bool :=
  startsWithL p.toList s.toList

/-- Accumulate leading decimal digits; `none` while no digit was seen. -/
def parseIntCore : List Char → Option Nat → Option Nat
  | [], acc => acc
  | c :: cs, acc =>
    if '0' ≤ c && c ≤ '9' then
      parseIntCore cs (some ((acc.getD 0) * 10 + (c.toNat - 48)))
    else acc

/-- JavaScript `parseInt(s, 10)` (optional sign, then leading digits;
`none` is `NaN`). -/
def jsParseInt (s : String) : Option Int :=
  match s.toList with
  | '-' :: rest => (parseIntCore rest none).map (fun n => -(n : Int))
  | '+' :: rest => (parseIntCore rest none).map (fun n => (n : Int))
  | l => (parseIntCore l none).map (fun n => (n : Int))

/-- The resize width the sharp pipeline receives: the source guards with
the truthiness of `width` (`null` and `""` are falsy) and `!isNaN(parseInt
(width, 10))`. -/
def resizePlan (width : Option String) : Option Int :=
  match width with
  | some w => if w = "" then none else jsParseInt w
  | none => none

/-- The webp quality the sharp pipeline receives: applied only when
`parseInt(quality, 10)` is a number in `[0, 100]`. -/
def qualityPlan (quality : String) : Option Int :=
  match jsParseInt quality with
  | some q => if 0 ≤ q && q ≤ 100 then some q else none
  | none => none

/-- The effective quality string: `url.searchParams.get("q") || "75"`
(the empty string is falsy). -/
def effQuality (qParam : Option String) : String :=
  match qParam with
  | some s => if s = "" then "75" else s
  | none => "75"

/-- JavaScript template rendering of the `width` query value inside the
cache key: `null` renders as the string `"null"`. -/
def renderWidth (width : Option String) : String :=
  match width with
  | some w => w
  | none => "null"

/-- The derivative cache key `` `img:${src}:w=${width}:q=${quality}` ``. -/
def derivKey (src : String) (width : Option String) (quality : String) : String :=
  "img:" ++ src ++ ":w=" ++ renderWidth width ++ ":q=" ++ quality

/-- The original-bytes cache key `` `original:${src}` ``. -/
def origKey (src : String) : String :=
  "original:" ++ src

/-- The fallback test
`parseFloat((((originalSize - optimizedSize) / originalSize) * 100)
.toFixed(2)) < 0` over the integer byte counts (see file header for the
rounding analysis). -/
def fallbackToOriginal (orig opt : Nat) : Bool :=
  if orig = 0 then decide (opt ≠ 0)
  else decide ((20000 : Int) * ((orig : Int) - (opt : Int)) ≤ -(orig : Int))

/-- `getCachedImage(src, width, quality)`: no-op when the cache is
disabled; otherwise `redis.get` of the derivative key, a thrown error
propagating, and a hit only for a truthy (non-empty) stored value. -/
def getCachedImage (env : Env) (cache : CacheMap) (src : String)
    (width : Option String) (quality : String) :
    Except String (Option Bytes) × List Event :=
  if env.isCacheEnabled && env.redisPresent then
    let key := derivKey src width quality
    match env.cacheGetErr key with
    | some msg => (.error msg, [.cacheGet key])
    | none =>
      match cache key with
      | some b => if b.isEmpty then (.ok none, [.cacheGet key]) else (.ok (some b), [.cacheGet key])
      | none => (.ok none, [.cacheGet key])
  else (.ok none, [])

/-- `cacheImage(src, width, quality, imageBuffer)`: no-op when the cache is
disabled; otherwise `redis.set` of the derivative key with the 7-day TTL, a
thrown error propagating (and leaving the store unchanged). -/
def cacheImage (env : Env) (cache : CacheMap) (src : String)
    (width : Option String) (quality : String) (imageBuffer : Bytes) :
    Except String Unit × CacheMap × List Event :=
  if env.isCacheEnabled && env.redisPresent then
    let key := derivKey src width quality
    match env.cacheSetErr key with
    | some msg => (.error msg, cache, [.cacheSet key imageBuffer])
    | none => (.ok (), updateCache cache key imageBuffer, [.cacheSet key imageBuffer])
  else (.ok (), cache, [])

/-- `getCachedOriginalImage(src)`: same shape over the `original:` key. -/
def getCachedOriginalImage (env : Env) (cache : CacheMap) (src : String) :
    Except String (Option Bytes) × List Event :=
  if env.isCacheEnabled && env.redisPresent then
    let key := origKey src
    match env.cacheGetErr key with
    | some msg => (.error msg, [.cacheGet key])
    | none =>
      match cache key with
      | some b => if b.isEmpty then (.ok none, [.cacheGet key]) else (.ok (some b), [.cacheGet key])
      | none => (.ok none, [.cacheGet key])
  else (.ok none, [])

/-- `cacheOriginalImage(src, imageBuffer)`: same shape over the
`original:` key. -/
def cacheOriginalImage (env : Env) (cache : CacheMap) (src : String)
    (imageBuffer : Bytes) :
    Except String Unit × CacheMap × List Event :=
  if env.isCacheEnabled && env.redisPresent then
    let key := origKey src
    match env.cacheSetErr key with
    | some msg => (.error msg, cache, [.cacheSet key imageBuffer])
    | none => (.ok (), updateCache cache key imageBuffer, [.cacheSet key imageBuffer])
  else (.ok (), cache, [])

/-- The `catch (s3Error)` block of `getImageBuffer`'s R2 branch: a message
containing `NoSuchKey` is re-thrown as `Image not found in R2 bucket:
${src}`; every other error as `Failed to read image from R2: ${src}`. -/
def r2Wrap (src msg : String) : String :=
  if strIncludes msg "NoSuchKey" then "Image not found in R2 bucket: " ++ src
  else "Failed to read image from R2: " ++ src

/-- `getImageBuffer(src)`.  URL branch: any failure inside the `try`
(non-2xx, which throws `Image not found`, or a transport error) is caught
and re-thrown as `Failed to fetch image from URL: ${src}`.  R2 branch: the
whole body is one `try`; the original-bytes cache is consulted first, then
the `s3Client` null check, then the R2 read, then the best-effort-less
`await cacheOriginalImage(...)`; anything thrown is re-wrapped by
`r2Wrap`. -/
def getImageBuffer (env : Env) (cache : CacheMap) (src : String) :
    Except String Bytes × CacheMap × List Event :=
  if startsWithStr src "http://" || startsWithStr src "https://" then
    match env.http src with
    | some bytes => (.ok bytes, cache, [.httpGet src])
    | none => (.error ("Failed to fetch image from URL: " ++ src), cache, [.httpGet src])
  else
    match getCachedOriginalImage env cache src with
    | (.error msg, ev) => (.error (r2Wrap src msg), cache, ev)
    | (.ok (some b), ev) => (.ok b, cache, ev)
    | (.ok none, ev) =>
      if env.s3Present then
        match env.s3 src with
        | .err msg => (.error (r2Wrap src msg), cache, ev ++ [.s3Get src])
        | .ok buffer =>
          match cacheOriginalImage env cache src buffer with
          | (.error msg, c2, ev2) => (.error (r2Wrap src msg), c2, ev ++ [.s3Get src] ++ ev2)
          | (.ok _, c2, ev2) => (.ok buffer, c2, ev ++ [.s3Get src] ++ ev2)
      else
        (.error (r2Wrap src "S3 client not initialized. Please set R2 credentials."), cache, ev)

/-- `processImage(originalBuffer, width, quality)`: the sharp pipeline with
the resize applied for a truthy, numeric width and the webp quality applied
for a numeric quality in `[0, 100]`. -/
def processImage (env : Env) (width : Option String) (quality : String)
    (originalBuffer : Bytes) : Except String Bytes × List Event :=
  (env.transform originalBuffer (resizePlan width) (qualityPlan quality), [.transformEv])

/-- The `catch (err)` block of `handleImageRequest`: 404 when the message
contains `not found`, 500 otherwise. -/
def catchResp (msg : String) : ServeOutcome :=
  if strIncludes msg "not found" then .error 404 msg else .error 500 msg

/-- `handleImageRequest` after the excluded boundary parsing: inputs are
the decoded `src` path, the raw `w` query value and the raw `q` query
value.  Empty source is a 400; then derivative cache lookup (hit is the
terminal fast path); then fetch, transform, derivative cache write, and
the fallback-to-original decision.  Any thrown error reaches the outer
`catch` (`catchResp`). -/
def handleImageRequest (env : Env) (cache : CacheMap) (src : String)
    (width : Option String) (qParam : Option String) :
    ServeOutcome × CacheMap × List Event :=
  let quality := effQuality qParam
  if src = "" then (.error 400 "Source image is required", cache, [])
  else
    match getCachedImage env cache src width quality with
    | (.error msg, ev1) => (catchResp msg, cache, ev1)
    | (.ok (some b), ev1) => (.image .HIT b, cache, ev1)
    | (.ok none, ev1) =>
      match getImageBuffer env cache src with
      | (.error msg, c2, ev2) => (catchResp msg, c2, ev1 ++ ev2)
      | (.ok originalBuffer, c2, ev2) =>
        match processImage env width quality originalBuffer with
        | (.error msg, ev3) => (catchResp msg, c2, ev1 ++ ev2 ++ ev3)
        | (.ok processedImage, ev3) =>
          match cacheImage env c2 src width quality processedImage with
          | (.error msg, c3, ev4) => (catchResp msg, c3, ev1 ++ ev2 ++ ev3 ++ ev4)
          | (.ok _, c3, ev4) =>
            if fallbackToOriginal originalBuffer.length processedImage.length then
              (.image .MISS originalBuffer, c3, ev1 ++ ev2 ++ ev3 ++ ev4)
            else
              (.image .MISS processedImage, c3, ev1 ++ ev2 ++ ev3 ++ ev4)

/-! ### Basic lemmas about the string scan and the error classifier -/

lemma startsWithL_append (a b r : List Char) (h : startsWithL a b = true) :
    startsWithL a (b ++ r) = true := by
  induction a generalizing b with
  | nil => rfl
  | cons x xs ih =>
    cases b with
    | nil => simp [startsWithL] at h
    | cons y ys =>
      simp only [startsWithL, Bool.and_eq_true] at h ⊢
      exact ⟨h.1, ih ys h.2⟩

lemma hasSubL_append (n h r : List Char) (hh : hasSubL n h = true) :
    hasSubL n (h ++ r) = true := by
  induction h with
  | nil =>
    simp only [hasSubL] at hh
    cases n with
    | nil =>
      cases r with
      | nil => rfl
      | cons c cs => simp [hasSubL, startsWithL]
    | cons x xs => simp [startsWithL] at hh
  | cons c cs ih =>
    simp only [List.cons_append, hasSubL, Bool.or_eq_true] at hh ⊢
    rcases hh with hh | hh
    · exact Or.inl (startsWithL_append _ _ _ hh)
    · exact Or.inr (ih hh)

lemma string_data_append (s t : String) : (s ++ t).data = s.data ++ t.data := rfl

lemma strIncludes_append_left (lit src needle : String)
    (h : strIncludes lit needle = true) :
    strIncludes (lit ++ src) needle = true := by
  unfold strIncludes at h ⊢
  unfold String.toList at h ⊢
  rw [string_data_append]
  exact hasSubL_append _ _ _ h

lemma catchResp_404 (msg : String) (h : strIncludes msg "not found" = true) :
    catchResp msg = .error 404 msg := by
  simp [catchResp, h]

lemma catchResp_500 (msg : String) (h : strIncludes msg "not found" = false) :
    catchResp msg = .error 500 msg := by
  simp [catchResp, h]

/-! ### Evaluation lemmas for the cache helpers -/

lemma getCachedImage_disabled (env : Env) (cache : CacheMap) (src : String)
    (width : Option String) (quality : String)
    (h : env.isCacheEnabled = false ∨ env.redisPresent = false) :
    getCachedImage env cache src width quality = (.ok none, []) := by
  unfold getCachedImage
  rcases h with h | h <;> simp [h]

lemma getCachedImage_err (env : Env) (cache : CacheMap) (src : String)
    (width : Option String) (quality : String) (msg : String)
    (h1 : env.isCacheEnabled = true) (h2 : env.redisPresent = true)
    (h3 : env.cacheGetErr (derivKey src width quality) = some msg) :
    getCachedImage env cache src width quality =
      (.error msg, [.cacheGet (derivKey src width quality)]) := by
  unfold getCachedImage
  simp [h1, h2, h3]

lemma getCachedImage_missNone (env : Env) (cache : CacheMap) (src : String)
    (width : Option String) (quality : String)
    (h1 : env.isCacheEnabled = true) (h2 : env.redisPresent = true)
    (h3 : env.cacheGetErr (derivKey src width quality) = none)
    (hmiss : cache (derivKey src width quality) = none) :
    getCachedImage env cache src width quality =
      (.ok none, [.cacheGet (derivKey src width quality)]) := by
  unfold getCachedImage
  simp [h1, h2, h3, hmiss]

lemma getCachedImage_hit (env : Env) (cache : CacheMap) (src : String)
    (width : Option String) (quality : String) (b : Bytes)
    (h1 : env.isCacheEnabled = true) (h2 : env.redisPresent = true)
    (h3 : env.cacheGetErr (derivKey src width quality) = none)
    (hhit : cache (derivKey src width quality) = some b) (hne : b ≠ []) :
    getCachedImage env cache src width quality =
      (.ok (some b), [.cacheGet (derivKey src width quality)]) := by
  unfold getCachedImage
  simp [h1, h2, h3, hhit, hne]

lemma cacheImage_disabled (env : Env) (cache : CacheMap) (src : String)
    (width : Option String) (quality : String) (b : Bytes)
    (h : env.isCacheEnabled = false ∨ env.redisPresent = false) :
    cacheImage env cache src width quality b = (.ok (), cache, []) := by
  unfold cacheImage
  rcases h with h | h <;> simp [h]

lemma cacheImage_ok (env : Env) (cache : CacheMap) (src : String)
    (width : Option String) (quality : String) (b : Bytes)
    (h1 : env.isCacheEnabled = true) (h2 : env.redisPresent = true)
    (h3 : env.cacheSetErr (derivKey src width quality) = none) :
    cacheImage env cache src width quality b =
      (.ok (), updateCache cache (derivKey src width quality) b,
        [.cacheSet (derivKey src width quality) b]) := by
  unfold cacheImage
  simp [h1, h2, h3]

lemma getCachedOriginalImage_missNone (env : Env) (cache : CacheMap) (src : String)
    (h1 : env.isCacheEnabled = true) (h2 : env.redisPresent = true)
    (h3 : env.cacheGetErr (origKey src) = none)
    (hmiss : cache (origKey src) = none) :
    getCachedOriginalImage env cache src = (.ok none, [.cacheGet (origKey src)]) := by
  unfold getCachedOriginalImage
  simp [h1, h2, h3, hmiss]

lemma getCachedOriginalImage_hit (env : Env) (cache : CacheMap) (src : String) (b : Bytes)
    (h1 : env.isCacheEnabled = true) (h2 : env.redisPresent = true)
    (h3 : env.cacheGetErr (origKey src) = none)
    (hhit : cache (origKey src) = some b) (hne : b ≠ []) :
    getCachedOriginalImage env cache src = (.ok (some b), [.cacheGet (origKey src)]) := by
  unfold getCachedOriginalImage
  simp [h1, h2, h3, hhit, hne]

lemma processImage_eval (env : Env) (width : Option String) (quality : String)
    (A B : Bytes)
    (h : env.transform A (resizePlan width) (qualityPlan quality) = .ok B) :
    processImage env width quality A = (.ok B, [.transformEv]) := by
  unfold processImage
  rw [h]

/-! ### Evaluation lemmas for `getImageBuffer` and `handleImageRequest` -/

lemma getImageBuffer_url_ok (env : Env) (cache : CacheMap) (src : String) (A : Bytes)
    (hurl : startsWithStr src "http://" = true ∨ startsWithStr src "https://" = true)
    (hhttp : env.http src = some A) :
    getImageBuffer env cache src = (.ok A, cache, [.httpGet src]) := by
  unfold getImageBuffer
  rcases hurl with h | h <;> simp [h, hhttp]

lemma getImageBuffer_url_fail (env : Env) (cache : CacheMap) (src : String)
    (hurl : startsWithStr src "http://" = true ∨ startsWithStr src "https://" = true)
    (hhttp : env.http src = none) :
    getImageBuffer env cache src =
      (.error ("Failed to fetch image from URL: " ++ src), cache, [.httpGet src]) := by
  unfold getImageBuffer
  rcases hurl with h | h <;> simp [h, hhttp]

lemma getImageBuffer_origCacheHit (env : Env) (cache : CacheMap) (src : String) (b : Bytes)
    (hurl1 : startsWithStr src "http://" = false)
    (hurl2 : startsWithStr src "https://" = false)
    (h1 : env.isCacheEnabled = true) (h2 : env.redisPresent = true)
    (h3 : env.cacheGetErr (origKey src) = none)
    (hhit : cache (origKey src) = some b) (hne : b ≠ []) :
    getImageBuffer env cache src = (.ok b, cache, [.cacheGet (origKey src)]) := by
  unfold getImageBuffer
  rw [hurl1, hurl2]
  simp only [Bool.or_self, Bool.false_eq_true, if_false,
    getCachedOriginalImage_hit env cache src b h1 h2 h3 hhit hne]

lemma getImageBuffer_r2_nosuchkey (env : Env) (cache : CacheMap) (src : String) (msg : String)
    (hurl1 : startsWithStr src "http://" = false)
    (hurl2 : startsWithStr src "https://" = false)
    (h1 : env.isCacheEnabled = true) (h2 : env.redisPresent = true)
    (h3 : env.cacheGetErr (origKey src) = none)
    (hmiss : cache (origKey src) = none)
    (hs3p : env.s3Present = true)
    (hs3 : env.s3 src = .err msg)
    (hns : strIncludes msg "NoSuchKey" = true) :
    getImageBuffer env cache src =
      (.error ("Image not found in R2 bucket: " ++ src), cache,
        [.cacheGet (origKey src), .s3Get src]) := by
  unfold getImageBuffer
  rw [hurl1, hurl2]
  simp only [Bool.or_self, Bool.false_eq_true, if_false,
    getCachedOriginalImage_missNone env cache src h1 h2 h3 hmiss, hs3p, if_true, hs3]
  simp [r2Wrap, hns]

lemma handle_hit_eval (env : Env) (cache : CacheMap) (src : String)
    (width : Option String) (qParam : Option String) (b : Bytes) (ev1 : List Event)
    (hsrc : src ≠ "")
    (hget : getCachedImage env cache src width (effQuality qParam) = (.ok (some b), ev1)) :
    handleImageRequest env cache src width qParam = (.image .HIT b, cache, ev1) := by
  unfold handleImageRequest
  simp [hsrc, hget]

lemma handle_getErr (env : Env) (cache : CacheMap) (src : String)
    (width : Option String) (qParam : Option String) (msg : String) (ev1 : List Event)
    (hsrc : src ≠ "")
    (hget : getCachedImage env cache src width (effQuality qParam) = (.error msg, ev1)) :
    handleImageRequest env cache src width qParam = (catchResp msg, cache, ev1) := by
  unfold handleImageRequest
  simp [hsrc, hget]

lemma handle_fetchErr (env : Env) (cache : CacheMap) (src : String)
    (width : Option String) (qParam : Option String) (msg : String)
    (c2 : CacheMap) (ev1 ev2 : List Event)
    (hsrc : src ≠ "")
    (hget : getCachedImage env cache src width (effQuality qParam) = (.ok none, ev1))
    (hfetch : getImageBuffer env cache src = (.error msg, c2, ev2)) :
    handleImageRequest env cache src width qParam = (catchResp msg, c2, ev1 ++ ev2) := by
  unfold handleImageRequest
  simp [hsrc, hget, hfetch]

lemma handle_miss_eval (env : Env) (cache : CacheMap) (src : String)
    (width : Option String) (qParam : Option String) (A B : Bytes)
    (c2 c3 : CacheMap) (ev1 ev2 ev4 : List Event)
    (hsrc : src ≠ "")
    (hget : getCachedImage env cache src width (effQuality qParam) = (.ok none, ev1))
    (hfetch : getImageBuffer env cache src = (.ok A, c2, ev2))
    (hproc : env.transform A (resizePlan width) (qualityPlan (effQuality qParam)) = .ok B)
    (hset : cacheImage env c2 src width (effQuality qParam) B = (.ok (), c3, ev4)) :
    handleImageRequest env cache src width qParam =
      (.image .MISS (if fallbackToOriginal A.length B.length then A else B), c3,
        ev1 ++ ev2 ++ [.transformEv] ++ ev4) := by
  unfold handleImageRequest
  rw [show effQuality qParam = effQuality qParam from rfl] at hget
  simp only [hsrc, if_neg hsrc, hget, hfetch,
    processImage_eval env width (effQuality qParam) A B hproc, hset]
  by_cases hf : fallbackToOriginal A.length B.length <;> simp [hf]

lemma handle_procErr (env : Env) (cache : CacheMap) (src : String)
    (width : Option String) (qParam : Option String) (msg : String) (A : Bytes)
    (c2 : CacheMap) (ev1 ev2 : List Event)
    (hsrc : src ≠ "")
    (hget : getCachedImage env cache src width (effQuality qParam) = (.ok none, ev1))
    (hfetch : getImageBuffer env cache src = (.ok A, c2, ev2))
    (hproc : env.transform A (resizePlan width) (qualityPlan (effQuality qParam)) = .error msg) :
    handleImageRequest env cache src width qParam
      = (catchResp msg, c2, ev1 ++ ev2 ++ [.transformEv]) := by
  unfold handleImageRequest
  have hp : processImage env width (effQuality qParam) A = (.error msg, [.transformEv]) := by
    unfold processImage
    rw [hproc]
  simp [hsrc, hget, hfetch, hp]

/-! ### Concrete environments and states used by witnesses and counterexamples -/

/-- The empty Redis state. -/
def cEmpty : CacheMap := fun _ => none

/-- Everything disabled; the remote GET always fails (non-2xx or transport
error). -/
def envPlain : Env := {
  isCacheEnabled := false
  redisPresent := false
  s3Present := false
  cacheGetErr := fun _ => none
  cacheSetErr := fun _ => none
  http := fun _ => none
  s3 := fun _ => .err "down"
  transform := fun _ _ _ => .ok [] }

/-- Cache disabled; a 1-byte remote original that the transform inflates to
2 bytes. -/
def envInflate : Env := {
  isCacheEnabled := false
  redisPresent := false
  s3Present := false
  cacheGetErr := fun _ => none
  cacheSetErr := fun _ => none
  http := fun u => if u = "https://x" then some [5] else none
  s3 := fun _ => .err "down"
  transform := fun _ _ _ => .ok [6, 7] }

/-- Cache disabled; a 20001-byte remote original that the transform
inflates to 20002 bytes — strictly larger, but the savings percentage
(-0.005%) rounds to -0.00 under toFixed(2). -/
def envBig : Env := {
  isCacheEnabled := false
  redisPresent := false
  s3Present := false
  cacheGetErr := fun _ => none
  cacheSetErr := fun _ => none
  http := fun u => if u = "https://x/big.jpg" then some (List.replicate 20001 7) else none
  s3 := fun _ => .err "down"
  transform := fun _ _ _ => .ok (List.replicate 20002 7) }

/-- Healthy enabled cache; a 1-byte remote original inflated to 2 bytes by
the transform. -/
def envHit : Env := {
  isCacheEnabled := true
  redisPresent := true
  s3Present := false
  cacheGetErr := fun _ => none
  cacheSetErr := fun _ => none
  http := fun u => if u = "https://x" then some [7] else none
  s3 := fun _ => .err "down"
  transform := fun _ _ _ => .ok [8, 9] }

/-- Healthy enabled cache; a 2-byte remote original shrunk to 1 byte by the
transform. -/
def envSave : Env := {
  isCacheEnabled := true
  redisPresent := true
  s3Present := false
  cacheGetErr := fun _ => none
  cacheSetErr := fun _ => none
  http := fun u => if u = "https://x" then some [7, 7] else none
  s3 := fun _ => .err "down"
  transform := fun _ _ _ => .ok [8] }

/-- Enabled cache whose `redis.get` throws on the derivative key of
`("a", null, "75")`. -/
def envGetErr : Env := {
  isCacheEnabled := true
  redisPresent := true
  s3Present := false
  cacheGetErr := fun k => if k = derivKey "a" none "75" then some "redis boom" else none
  cacheSetErr := fun _ => none
  http := fun _ => none
  s3 := fun _ => .err "down"
  transform := fun _ _ _ => .ok [] }

/-- Healthy enabled cache, connected object store that has no such key. -/
def envNoKey : Env := {
  isCacheEnabled := true
  redisPresent := true
  s3Present := true
  cacheGetErr := fun _ => none
  cacheSetErr := fun _ => none
  http := fun _ => none
  s3 := fun _ => .err "NoSuchKey: missing"
  transform := fun _ _ _ => .ok [] }

/-- A Redis state holding an original-bytes entry for `photos/cat.jpg`. -/
def cacheOrig : CacheMap :=
  fun k => if k = origKey "photos/cat.jpg" then some [9, 9] else none

/-! ### Claims -/

/-- Claim C1, counterexample: a 20001-byte original whose transform output
is 20002 bytes is strictly larger (`savingsPct = -0.005 % < 0`), yet the
response body is the transformed bytes, not the original bytes: the source
compares `parseFloat(savings.toFixed(2)) < 0`, and `-0.005` rounds to
`-0.00`, which is not `< 0`. -/
theorem c1_counterexample :
    (handleImageRequest envBig cEmpty "https://x/big.jpg" none none).1
      = .image .MISS (List.replicate 20002 7)
    ∧ (List.replicate 20002 7 : Bytes) ≠ List.replicate 20001 7
    ∧ (List.replicate 20001 (7 : Nat)).length < (List.replicate 20002 (7 : Nat)).length := by
  refine ⟨?_, ?_, ?_⟩
  · have h := handle_miss_eval envBig cEmpty "https://x/big.jpg" none none
      (List.replicate 20001 7) (List.replicate 20002 7) cEmpty cEmpty
      [] [.httpGet "https://x/big.jpg"] []
      (by decide) rfl rfl rfl rfl
    have hf : fallbackToOriginal (List.replicate 20001 (7 : Nat)).length
        (List.replicate 20002 (7 : Nat)).length = false := by
      simp only [List.length_replicate]
      decide
    rw [h, hf]
    rfl
  · intro hEq
    have hLen := congrArg List.length hEq
    simp only [List.length_replicate] at hLen
    omega
  · simp only [List.length_replicate]
    omega

/-- Claim C1 (amended): on a derivative-cache miss with a successful fetch
and transform, whenever the rounded savings percentage is strictly negative
— `fallbackToOriginal` true, i.e. `savingsPct ≤ -0.005` — the response body
is the original fetched bytes with `X-Cache: MISS`. -/
theorem c1_theorem (env : Env) (cache : CacheMap) (src : String)
    (width qParam : Option String) (A B : Bytes) (c2 c3 : CacheMap)
    (ev1 ev2 ev4 : List Event)
    (hsrc : src ≠ "")
    (hget : getCachedImage env cache src width (effQuality qParam) = (.ok none, ev1))
    (hfetch : getImageBuffer env cache src = (.ok A, c2, ev2))
    (hproc : env.transform A (resizePlan width) (qualityPlan (effQuality qParam)) = .ok B)
    (hset : cacheImage env c2 src width (effQuality qParam) B = (.ok (), c3, ev4))
    (hfall : fallbackToOriginal A.length B.length = true) :
    (handleImageRequest env cache src width qParam).1 = .image .MISS A := by
  rw [handle_miss_eval env cache src width qParam A B c2 c3 ev1 ev2 ev4
    hsrc hget hfetch hproc hset, hfall]
  rfl

/-- Witness for C1 at a concrete input: a 1-byte original inflated to 2
bytes (savings -100 %) is served back as the original with MISS. -/
theorem c1_witness :
    fallbackToOriginal 1 2 = true
    ∧ (handleImageRequest envInflate cEmpty "https://x" none none).1 = .image .MISS [5] :=
  ⟨by decide,
    c1_theorem envInflate cEmpty "https://x" none none [5] [6, 7] cEmpty cEmpty
      [] [.httpGet "https://x"] [] (by decide) rfl rfl rfl rfl (by decide)⟩

/-- Claim C2: on a cache-miss Serve call that completes the transform with
a healthy enabled cache, the derivative cache entry ends up holding the
transformed bytes — with no hypothesis on the savings sign, so this covers
the calls where the fallback policy returns the original bytes. -/
theorem c2_theorem (env : Env) (cache : CacheMap) (src : String)
    (width qParam : Option String) (A B : Bytes) (c2 : CacheMap) (ev2 : List Event)
    (hsrc : src ≠ "")
    (h1 : env.isCacheEnabled = true) (h2 : env.redisPresent = true)
    (hgerr : env.cacheGetErr (derivKey src width (effQuality qParam)) = none)
    (hmiss : cache (derivKey src width (effQuality qParam)) = none)
    (hfetch : getImageBuffer env cache src = (.ok A, c2, ev2))
    (hproc : env.transform A (resizePlan width) (qualityPlan (effQuality qParam)) = .ok B)
    (hserr : env.cacheSetErr (derivKey src width (effQuality qParam)) = none) :
    (handleImageRequest env cache src width qParam).2.1
      (derivKey src width (effQuality qParam)) = some B := by
  rw [handle_miss_eval env cache src width qParam A B c2 _ _ _ _ hsrc
    (getCachedImage_missNone env cache src width _ h1 h2 hgerr hmiss) hfetch hproc
    (cacheImage_ok env c2 src width _ B h1 h2 hserr)]
  simp [updateCache]

/-- Witness for C2 at a concrete input where the fallback triggers (1-byte
original inflated to 2 bytes): the response is the original, yet the cache
entry holds the transformed bytes. -/
theorem c2_witness :
    fallbackToOriginal 1 2 = true
    ∧ (handleImageRequest envHit cEmpty "https://x" none none).2.1
        (derivKey "https://x" none "75") = some [8, 9] :=
  ⟨by decide,
    c2_theorem envHit cEmpty "https://x" none none [7] [8, 9] cEmpty
      [.httpGet "https://x"] (by decide) rfl rfl rfl rfl rfl rfl rfl⟩

/-- Claim C3, counterexample: with the cache enabled, an error thrown by
`redis.get` on the derivative key is not swallowed — the request fails with
a 500 JSON error carrying the Redis message, and no fetch or transform
happens (the trace holds only the cache read). -/
theorem c3_counterexample :
    handleImageRequest envGetErr cEmpty "a" none none
      = (.error 500 "redis boom", cEmpty, [.cacheGet (derivKey "a" none "75")]) := by
  rfl

/-- Claim C3 (amended): a cache backend `get` error on the derivative key
is propagated: the request is aborted with HTTP 500 and the Redis error
message (whenever that message does not contain `not found`), instead of
degrading to the cache-miss path. -/
theorem c3_theorem (env : Env) (cache : CacheMap) (src : String)
    (width qParam : Option String) (msg : String)
    (hsrc : src ≠ "")
    (h1 : env.isCacheEnabled = true) (h2 : env.redisPresent = true)
    (hget : env.cacheGetErr (derivKey src width (effQuality qParam)) = some msg)
    (hnf : strIncludes msg "not found" = false) :
    handleImageRequest env cache src width qParam
      = (.error 500 msg, cache, [.cacheGet (derivKey src width (effQuality qParam))]) := by
  rw [handle_getErr env cache src width qParam msg _ hsrc
    (getCachedImage_err env cache src width _ msg h1 h2 hget), catchResp_500 msg hnf]

/-- Witness for C3 at a concrete input. -/
theorem c3_witness :
    envGetErr.cacheGetErr (derivKey "a" none "75") = some "redis boom"
    ∧ handleImageRequest envGetErr cEmpty "a" none none
        = (.error 500 "redis boom", cEmpty, [.cacheGet (derivKey "a" none "75")]) :=
  ⟨rfl,
    c3_theorem envGetErr cEmpty "a" none none "redis boom"
      (by decide) rfl rfl rfl (by decide)⟩

/-- Claim C4, counterexample: with a healthy enabled cache and
deterministic collaborators (1-byte original inflated to 2 bytes), the
first Serve call returns the original byte `[7]` (fallback policy) while
the second returns the cached transformed bytes `[8, 9]` with HIT — the two
consecutive calls do not yield identical bytes. -/
theorem c4_counterexample :
    (handleImageRequest envHit cEmpty "https://x" none none).1 = .image .MISS [7]
    ∧ (handleImageRequest envHit
        (handleImageRequest envHit cEmpty "https://x" none none).2.1
        "https://x" none none).1 = .image .HIT [8, 9]
    ∧ ([7] : Bytes) ≠ [8, 9] := by
  refine ⟨rfl, rfl, by decide⟩

/-- Claim C4 (amended): with a healthy enabled cache, a clean miss, and a
first call whose transform output is non-empty and does not trigger the
fallback (rounded savings not negative), two consecutive Serve calls yield
the same bytes `B` and the second call reports HIT. -/
theorem c4_theorem (env : Env) (cache : CacheMap) (src : String)
    (width qParam : Option String) (A B : Bytes) (c2 : CacheMap) (ev2 : List Event)
    (hsrc : src ≠ "")
    (h1 : env.isCacheEnabled = true) (h2 : env.redisPresent = true)
    (hgerr : env.cacheGetErr (derivKey src width (effQuality qParam)) = none)
    (hmiss : cache (derivKey src width (effQuality qParam)) = none)
    (hfetch : getImageBuffer env cache src = (.ok A, c2, ev2))
    (hproc : env.transform A (resizePlan width) (qualityPlan (effQuality qParam)) = .ok B)
    (hserr : env.cacheSetErr (derivKey src width (effQuality qParam)) = none)
    (hne : B ≠ [])
    (hfall : fallbackToOriginal A.length B.length = false) :
    (handleImageRequest env cache src width qParam).1 = .image .MISS B
    ∧ (handleImageRequest env
        (handleImageRequest env cache src width qParam).2.1 src width qParam).1
      = .image .HIT B := by
  have h := handle_miss_eval env cache src width qParam A B c2 _ _ _ _ hsrc
    (getCachedImage_missNone env cache src width _ h1 h2 hgerr hmiss) hfetch hproc
    (cacheImage_ok env c2 src width _ B h1 h2 hserr)
  constructor
  · rw [h, hfall]
    rfl
  · have hcache : (handleImageRequest env cache src width qParam).2.1
        = updateCache c2 (derivKey src width (effQuality qParam)) B := by
      rw [h]
    have hhit : updateCache c2 (derivKey src width (effQuality qParam)) B
        (derivKey src width (effQuality qParam)) = some B := by
      simp [updateCache]
    rw [hcache, handle_hit_eval env _ src width qParam B _ hsrc
      (getCachedImage_hit env _ src width _ B h1 h2 hgerr hhit hne)]

/-- Witness for C4 at a concrete input: a 2-byte original shrunk to 1 byte;
both consecutive calls serve `[8]` and the second is a HIT. -/
theorem c4_witness :
    fallbackToOriginal 2 1 = false
    ∧ ((handleImageRequest envSave cEmpty "https://x" none none).1 = .image .MISS [8]
      ∧ (handleImageRequest envSave
          (handleImageRequest envSave cEmpty "https://x" none none).2.1
          "https://x" none none).1 = .image .HIT [8]) :=
  ⟨by decide,
    c4_theorem envSave cEmpty "https://x" none none [7, 7] [8] cEmpty
      [.httpGet "https://x"] (by decide) rfl rfl rfl rfl rfl rfl rfl
      (by decide) (by decide)⟩

/-- Claim C5: a remote-URL source whose GET is non-2xx is answered with
HTTP 500, not 404 — `getImageBuffer` catches its own `Image not found`
error and re-throws `Failed to fetch image from URL: ${src}`, which the
handler's `includes("not found")` test does not match. -/
theorem c5_theorem :
    handleImageRequest envPlain cEmpty "https://x/test.jpg" none none
      = (.error 500 "Failed to fetch image from URL: https://x/test.jpg",
          cEmpty, [.httpGet "https://x/test.jpg"]) := by
  rfl

/-- Claim C6: a store key absent from both the original-bytes cache and the
object store ("NoSuchKey") yields the `Image not found in R2 bucket` error,
surfaced as HTTP 404; the Redis state is unchanged and the trace contains
no cache write. -/
theorem c6_theorem (env : Env) (cache : CacheMap) (src msg : String)
    (width qParam : Option String)
    (hsrc : src ≠ "")
    (hurl1 : startsWithStr src "http://" = false)
    (hurl2 : startsWithStr src "https://" = false)
    (h1 : env.isCacheEnabled = true) (h2 : env.redisPresent = true)
    (hgd : env.cacheGetErr (derivKey src width (effQuality qParam)) = none)
    (hmd : cache (derivKey src width (effQuality qParam)) = none)
    (hgo : env.cacheGetErr (origKey src) = none)
    (hmo : cache (origKey src) = none)
    (hs3p : env.s3Present = true)
    (hs3 : env.s3 src = .err msg)
    (hns : strIncludes msg "NoSuchKey" = true) :
    (handleImageRequest env cache src width qParam).1
        = .error 404 ("Image not found in R2 bucket: " ++ src)
    ∧ (handleImageRequest env cache src width qParam).2.1 = cache
    ∧ ∀ k v, Event.cacheSet k v ∉ (handleImageRequest env cache src width qParam).2.2 := by
  have h := handle_fetchErr env cache src width qParam
    ("Image not found in R2 bucket: " ++ src) cache
    [.cacheGet (derivKey src width (effQuality qParam))]
    [.cacheGet (origKey src), .s3Get src] hsrc
    (getCachedImage_missNone env cache src width _ h1 h2 hgd hmd)
    (getImageBuffer_r2_nosuchkey env cache src msg hurl1 hurl2 h1 h2 hgo hmo hs3p hs3 hns)
  rw [h, catchResp_404 _ (strIncludes_append_left _ src _ (by decide))]
  refine ⟨rfl, rfl, ?_⟩
  intro k v
  simp

/-- Witness for C6 at a concrete input: a missing key against a connected
store with a healthy cache gives a 404 and leaves the cache empty. -/
theorem c6_witness :
    strIncludes "NoSuchKey: missing" "NoSuchKey" = true
    ∧ (handleImageRequest envNoKey cEmpty "missing-key" none none).1
        = .error 404 ("Image not found in R2 bucket: " ++ "missing-key") :=
  ⟨by decide,
    (c6_theorem envNoKey cEmpty "missing-key" "NoSuchKey: missing" none none
      (by decide) (by decide) (by decide) rfl rfl rfl rfl rfl rfl rfl rfl
      (by decide)).1⟩

/-- Claim C7: an out-of-range quality never reaches the encoder — the
sharp pipeline receives `none` for the webp quality while still receiving
the parsed resize width, so the whole transform step is exactly
`env.transform` on the resize plan alone and the bad quality by itself
cannot raise. -/
theorem c7_theorem (env : Env) (buf : Bytes) (width : Option String)
    (quality : String) (n : Int)
    (hq : jsParseInt quality = some n) (hout : n < 0 ∨ 100 < n) :
    qualityPlan quality = none
    ∧ processImage env width quality buf
        = (env.transform buf (resizePlan width) none, [.transformEv])
    ∧ ∀ w, width = some w → w ≠ "" → resizePlan width = jsParseInt w := by
  have hqp : qualityPlan quality = none := by
    unfold qualityPlan
    rw [hq]
    have hcond : (decide (0 ≤ n) && decide (n ≤ 100)) = false := by
      rcases hout with h | h <;> simp <;> omega
    simp [hcond]
  refine ⟨hqp, ?_, ?_⟩
  · unfold processImage
    rw [hqp]
  · intro w hw hne
    subst hw
    simp [resizePlan, hne]

/-- Witness for C7 at the concrete input quality = 150, width = 800. -/
theorem c7_witness :
    jsParseInt "150" = some 150
    ∧ qualityPlan "150" = none
    ∧ processImage envPlain (some "800") "150" [1, 2]
        = (envPlain.transform [1, 2] (resizePlan (some "800")) none, [.transformEv]) :=
  ⟨by decide,
    (c7_theorem envPlain [1, 2] (some "800") "150" 150 (by decide)
      (Or.inr (by decide))).1,
    (c7_theorem envPlain [1, 2] (some "800") "150" 150 (by decide)
      (Or.inr (by decide))).2.1⟩

/-- Claim C8: with the cache backend disabled or not connected, Serve never
reports HIT, and on any call with a non-empty source whose fetch and
transform succeed, the full miss path runs — the fetch and transform events
appear in the trace and the response is the ordinary miss response, never
an error caused by the disabled cache. -/
theorem c8_theorem (env : Env) (cache : CacheMap) (src : String)
    (width qParam : Option String)
    (hdis : env.isCacheEnabled = false ∨ env.redisPresent = false) :
    (∀ b, (handleImageRequest env cache src width qParam).1 ≠ .image .HIT b)
    ∧ (∀ A B c2 ev2, src ≠ "" →
        getImageBuffer env cache src = (.ok A, c2, ev2) →
        env.transform A (resizePlan width) (qualityPlan (effQuality qParam)) = .ok B →
        handleImageRequest env cache src width qParam
          = (.image .MISS (if fallbackToOriginal A.length B.length then A else B),
              c2, ev2 ++ [.transformEv])) := by
  constructor
  · intro b
    by_cases hsrc : src = ""
    · have h400 : handleImageRequest env cache src width qParam
          = (.error 400 "Source image is required", cache, []) := by
        unfold handleImageRequest
        simp [hsrc]
      rw [h400]
      simp
    · rcases hfb : getImageBuffer env cache src with ⟨e, c2, ev2⟩
      cases e with
      | error msg =>
        rw [handle_fetchErr env cache src width qParam msg c2 [] ev2 hsrc
          (getCachedImage_disabled env cache src width _ hdis) hfb]
        unfold catchResp
        split <;> simp
      | ok A =>
        cases ht : env.transform A (resizePlan width) (qualityPlan (effQuality qParam)) with
        | error msg =>
          rw [handle_procErr env cache src width qParam msg A c2 [] ev2 hsrc
            (getCachedImage_disabled env cache src width _ hdis) hfb ht]
          unfold catchResp
          split <;> simp
        | ok B =>
          rw [handle_miss_eval env cache src width qParam A B c2 c2 [] ev2 [] hsrc
            (getCachedImage_disabled env cache src width _ hdis) hfb ht
            (cacheImage_disabled env c2 src width _ B hdis)]
          simp
  · intro A B c2 ev2 hsrc hfetch hproc
    have h := handle_miss_eval env cache src width qParam A B c2 c2 [] ev2 [] hsrc
      (getCachedImage_disabled env cache src width _ hdis) hfetch hproc
      (cacheImage_disabled env c2 src width _ B hdis)
    simpa using h

/-- Witness for C8 at a concrete input: with the disabled-cache
environment the first response cannot be a HIT. -/
theorem c8_witness :
    envInflate.isCacheEnabled = false
    ∧ (handleImageRequest envInflate cEmpty "https://x" none none).1
        ≠ .image .HIT [5] :=
  ⟨rfl,
    (c8_theorem envInflate cEmpty "https://x" none none (Or.inl rfl)).1 [5]⟩

/-- Claim C9: a store-key source whose bytes sit (non-empty) in the
original-bytes cache is fetched from that cache even when the S3 client was
never initialized — the cache lookup precedes the `s3Client` null check. -/
theorem c9_theorem (env : Env) (cache : CacheMap) (src : String) (b : Bytes)
    (_hs3 : env.s3Present = false)
    (hurl1 : startsWithStr src "http://" = false)
    (hurl2 : startsWithStr src "https://" = false)
    (h1 : env.isCacheEnabled = true) (h2 : env.redisPresent = true)
    (h3 : env.cacheGetErr (origKey src) = none)
    (hhit : cache (origKey src) = some b) (hne : b ≠ []) :
    getImageBuffer env cache src = (.ok b, cache, [.cacheGet (origKey src)]) :=
  getImageBuffer_origCacheHit env cache src b hurl1 hurl2 h1 h2 h3 hhit hne

/-- Witness for C9 at a concrete input: `envHit` has no S3 client, yet the
cached original for `photos/cat.jpg` is returned. -/
theorem c9_witness :
    envHit.s3Present = false
    ∧ getImageBuffer envHit cacheOrig "photos/cat.jpg"
        = (.ok [9, 9], cacheOrig, [.cacheGet (origKey "photos/cat.jpg")]) :=
  ⟨rfl,
    c9_theorem envHit cacheOrig "photos/cat.jpg" [9, 9] rfl (by decide) (by decide)
      rfl rfl rfl rfl (by decide)⟩

/-- Claim C10: the derivative cache-key derivation is not injective — the
distinct request triples `("a", w="1:w=2", q="3")` and
`("a:w=1", w="2", q="3")` render to the same key, so the two requests alias
each other's derivative cache entries. -/
theorem c10_theorem :
    derivKey "a" (some "1:w=2") "3" = derivKey "a:w=1" (some "2") "3"
    ∧ (("a", some "1:w=2", "3") : String × Option String × String)
        ≠ ("a:w=1", some "2", "3") := by
  refine ⟨rfl, by decide⟩
